import Mathlib

/-
A verification development for the capture runtime core of the `flow`
repository.  The two source files under scrutiny are
`crates/runtime/src/capture/protocol.rs` (the capture session protocol
functions) and `json/schema/types.rs` (the JSON type-set primitive).
Pure data and control flow from those files is embedded as executable Lean
definitions; collaborators that live outside those files (the `doc` crate's
documents, memtables and shapes, RocksDB, the `verify` helper) are modelled
from the specification, each with a doc comment saying so.
-/

namespace Flow

/-! ## JSON documents

The runtime parses captured documents and connector state into heap
documents (`doc::HeapNode` / `serde_json::Value`).  Both are modelled by a
single inductive.  Numbers keep the three-way classification that
`json/schema/types.rs` matches on (`Number::Float`, `Number::Signed`,
`Number::Unsigned`). -/

/-- Modelled from the spec: the number classification used by the `estuary_json`
`Number` type, which `types.rs` matches on.  Numeric values that are exact
integers are classified `signed` (negative) or `unsigned` (non-negative); all
other numeric values are `float`.  The float payload is kept as an exact
rational, which is enough for every claim (no claim inspects float payloads). -/
inductive ENumber where
  | float (q : Rat)
  | signed (i : Int)
  | unsigned (n : Nat)
deriving DecidableEq

/-- Modelled from the spec: a JSON document (`serde_json::Value` /
`doc::HeapNode`).  Objects are ordered association lists. -/
inductive Json where
  | null
  | bool (b : Bool)
  | num (n : ENumber)
  | str (s : String)
  | arr (items : List Json)
  | obj (members : List (String × Json))

/-- Escape one character for JSON string output. -/
def escapeChar (c : Char) : String :=
  if c = '"' then "\\\"" else if c = '\\' then "\\\\" else String.mk [c]

/-- Escape a string for JSON string output. -/
def escapeString (s : String) : String :=
  String.join (s.data.map escapeChar)

mutual

/-- Modelled from the spec: compact JSON serialization
(`serde_json::to_string` composed with the default `SerPolicy`, which applies
no truncation).  The claims only depend on serialization being a function of
the document, never on the exact rendering of numbers. -/
def serializeJson : Json → String
  | Json.null => "null"
  | Json.bool true => "true"
  | Json.bool false => "false"
  | Json.num (ENumber.unsigned n) => toString n
  | Json.num (ENumber.signed i) => toString i
  | Json.num (ENumber.float q) => toString q
  | Json.str s => "\"" ++ escapeString s ++ "\""
  | Json.arr items => "[" ++ serializeItems items ++ "]"
  | Json.obj members => "\x7b" ++ serializeMembers members ++ "\x7d"

/-- Serialize array elements, comma separated. -/
def serializeItems : List Json → String
  | [] => ""
  | x :: xs => serializeJson x ++ (if xs.isEmpty then "" else ",") ++ serializeItems xs

/-- Serialize object members, comma separated. -/
def serializeMembers : List (String × Json) → String
  | [] => ""
  | (k, v) :: xs =>
      "\"" ++ escapeString k ++ "\":" ++ serializeJson v
        ++ (if xs.isEmpty then "" else ",") ++ serializeMembers xs

end

/-! ## A small JSON parser

`memtable.parse_json_str` and `serde_json` parsing live outside the extracted
sources, so parsing is modelled: a recursive-descent parser over the standard
JSON grammar (whitespace, literals, numbers with optional fraction/exponent,
strings with the common escapes, arrays, objects).  Every claim that involves
parsing is conditional only on a parse succeeding or failing, never on which
strings parse. -/

def isDigit (c : Char) : Bool := '0' ≤ c && c ≤ '9'

def digitVal (c : Char) : Nat := c.toNat - '0'.toNat

def skipWs : List Char → List Char
  | [] => []
  | c :: rest =>
      if c = ' ' ∨ c = '\n' ∨ c = '\t' ∨ c = '\r' then skipWs rest else c :: rest

def parseStringBody : List Char → Option (String × List Char)
  | [] => none
  | '"' :: rest => some ("", rest)
  | '\\' :: c :: rest => do
      let e ← match c with
        | '"' => some "\""
        | '\\' => some "\\"
        | '/' => some "/"
        | 'n' => some "\n"
        | 't' => some "\t"
        | 'r' => some "\r"
        | _ => none
      let (s, rest2) ← parseStringBody rest
      some (e ++ s, rest2)
  | c :: rest => do
      let (s, rest2) ← parseStringBody rest
      some (String.mk [c] ++ s, rest2)

def takeDigits : List Char → (List Char × List Char)
  | [] => ([], [])
  | c :: rest =>
      if isDigit c then
        let (ds, r) := takeDigits rest
        (c :: ds, r)
      else ([], c :: rest)

def digitsToNat (ds : List Char) : Nat :=
  ds.foldl (fun a c => a * 10 + digitVal c) 0

def parseFrac : List Char → (Option (List Char) × List Char)
  | '.' :: rest =>
      let (ds, r) := takeDigits rest
      (some ds, r)
  | cs => (none, cs)

def parseExp : List Char → (Option Int × List Char)
  | [] => (none, [])
  | c :: rest =>
      if c = 'e' ∨ c = 'E' then
        let (sgn, rest2) : Int × List Char := match rest with
          | '+' :: r => (1, r)
          | '-' :: r => (-1, r)
          | _ => (1, rest)
        let (ds, r) := takeDigits rest2
        (some (sgn * (digitsToNat ds : Int)), r)
      else (none, c :: rest)

def parseNumber (cs0 : List Char) : Option (ENumber × List Char) :=
  let (neg, cs1) : Bool × List Char := match cs0 with
    | '-' :: rest => (true, rest)
    | _ => (false, cs0)
  let (ids, cs2) := takeDigits cs1
  if ids.isEmpty then none else
  let (frac, cs3) := parseFrac cs2
  let (ex, cs4) := parseExp cs3
  let ipart : Nat := digitsToNat ids
  match frac, ex with
  | none, none =>
      if neg then some (ENumber.signed (-(ipart : Int)), cs4)
      else some (ENumber.unsigned ipart, cs4)
  | _, _ =>
      let fds := frac.getD []
      let base : Rat := (ipart : Rat) + (digitsToNat fds : Rat) / ((10 : Rat) ^ fds.length)
      let e : Int := ex.getD 0
      let mag : Rat :=
        if 0 ≤ e then base * (10 : Rat) ^ e.toNat else base / ((10 : Rat) ^ (-e).toNat)
      some (ENumber.float (if neg then -mag else mag), cs4)

mutual

/-- Fuel-indexed JSON value parser. -/
def parseValue : Nat → List Char → Option (Json × List Char)
  | 0, _ => none
  | fuel + 1, cs =>
      match skipWs cs with
      | [] => none
      | 'n' :: 'u' :: 'l' :: 'l' :: rest => some (Json.null, rest)
      | 't' :: 'r' :: 'u' :: 'e' :: rest => some (Json.bool true, rest)
      | 'f' :: 'a' :: 'l' :: 's' :: 'e' :: rest => some (Json.bool false, rest)
      | '"' :: rest => do
          let (s, r) ← parseStringBody rest
          some (Json.str s, r)
      | '[' :: rest =>
          (match skipWs rest with
           | ']' :: r => some (Json.arr [], r)
           | cs2 => do
              let (items, r) ← parseItems fuel cs2
              some (Json.arr items, r))
      | '\x7b' :: rest =>
          (match skipWs rest with
           | '\x7d' :: r => some (Json.obj [], r)
           | cs2 => do
              let (ms, r) ← parseMembers fuel cs2
              some (Json.obj ms, r))
      | cs2 => do
          let (n, r) ← parseNumber cs2
          some (Json.num n, r)

/-- Fuel-indexed parser for the elements of a JSON array, after `[`. -/
def parseItems : Nat → List Char → Option (List Json × List Char)
  | 0, _ => none
  | fuel + 1, cs => do
      let (v, r) ← parseValue fuel cs
      match skipWs r with
      | ',' :: r2 => do
          let (vs, r3) ← parseItems fuel r2
          some (v :: vs, r3)
      | ']' :: r2 => some ([v], r2)
      | _ => none

/-- Fuel-indexed parser for the members of a JSON object, after the brace. -/
def parseMembers : Nat → List Char → Option (List (String × Json) × List Char)
  | 0, _ => none
  | fuel + 1, cs =>
      match skipWs cs with
      | '"' :: rest => do
          let (k, r) ← parseStringBody rest
          match skipWs r with
          | ':' :: r2 => do
              let (v, r3) ← parseValue fuel r2
              match skipWs r3 with
              | ',' :: r4 => do
                  let (ms, r5) ← parseMembers fuel r4
                  some ((k, v) :: ms, r5)
              | '\x7d' :: r4 => some ([(k, v)], r4)
              | _ => none
          | _ => none
      | _ => none

end

/-- Modelled from the spec: `memtable.parse_json_str` — "heap document (errors
on invalid JSON)".  Returns `none` exactly when the input is not a single JSON
document. -/
def parse_json_str (s : String) : Option Json :=
  match parseValue (s.length + 1) s.data with
  | some (v, rest) => if (skipWs rest).isEmpty then some v else none
  | none => none

end Flow

/-! ## `json/schema/types.rs`: the TypeSet primitive -/

namespace Flow.types

/-- `types::Set` is a newtype over `u32` holding a bitset of the seven JSON
types; embedded as `Nat` with the identical bit layout. -/
abbrev Set := Nat

def INVALID : Set := 0
def ARRAY : Set := 1
def BOOLEAN : Set := 2
def INTEGER : Set := 4
def NULL : Set := 8
def NUMBER : Set := 16
def OBJECT : Set := 32
def STRING : Set := 64
def ANY : Set := 127

/-- The `ALL` constant array of `types.rs`, in its source order. -/
def ALL : List Set := [ARRAY, BOOLEAN, INTEGER, NULL, NUMBER, OBJECT, STRING]

/-- `impl Not for Set`: bitwise complement masked to the seven defined bits
(`(!self.0) & ANY.0`). -/
def Set.not (s : Set) : Set := 127 ^^^ (s &&& 127)

/-- `Set::overlaps`: the intersection is non-empty (`*self & other != INVALID`). -/
def Set.overlaps (s other : Set) : Bool := s &&& other != INVALID

/-- The name yielded by `Iter::next` for a single-bit member, per the `match`
inside `types.rs`'s iterator. -/
def typeNameOf (t : Set) : Option String :=
  if t = ARRAY then some "array"
  else if t = BOOLEAN then some "boolean"
  else if t = INTEGER then some "integer"
  else if t = NULL then some "null"
  else if t = NUMBER then some "number"
  else if t = OBJECT then some "object"
  else if t = STRING then some "string"
  else none

/-- `Set::iter` collected to a list: walk `ALL` in order and yield the name of
every member that overlaps the set. -/
def Set.iterNames (s : Set) : List String :=
  (ALL.filter fun t => s.overlaps t).filterMap typeNameOf

/-- `Set::for_type_name`: the inverse of the canonical name map. -/
def for_type_name (str_val : String) : Option Set :=
  match str_val with
  | "array" => some ARRAY
  | "boolean" => some BOOLEAN
  | "integer" => some INTEGER
  | "null" => some NULL
  | "number" => some NUMBER
  | "object" => some OBJECT
  | "string" => some STRING
  | _ => none

/-- `Set::for_value`: the TypeSet of a concrete JSON value.  `Number::from`
is modelled by the `ENumber` classification itself (see `ENumber`). -/
def for_value (val : Json) : Set :=
  match val with
  | Json.arr _ => ARRAY
  | Json.bool _ => BOOLEAN
  | Json.null => NULL
  | Json.num n =>
      match n with
      | ENumber.float _ => NUMBER
      | ENumber.signed _ => NUMBER ||| INTEGER
      | ENumber.unsigned _ => NUMBER ||| INTEGER
  | Json.obj _ => OBJECT
  | Json.str _ => STRING

/-- `Set::is_single_scalar_type`: remove null, then compare against the four
scalar singletons (the source's or-pattern `INTEGER | BOOLEAN | STRING |
NUMBER`). -/
def Set.is_single_scalar_type (s : Set) : Bool :=
  let without_null := s &&& (Set.not NULL)
  (without_null == INTEGER) || (without_null == BOOLEAN)
    || (without_null == STRING) || (without_null == NUMBER)

end Flow.types

namespace Flow

/-- The spec-side reading of C9: the member-name list of `s` with `"null"`
removed is exactly one of the four scalar singletons. -/
def singleScalarSpec (s : types.Set) : Prop :=
  let l := (types.Set.iterNames s).filter fun n => n ≠ "null"
  l = ["integer"] ∨ l = ["boolean"] ∨ l = ["string"] ∨ l = ["number"]

instance (s : types.Set) : Decidable (singleScalarSpec s) := by
  unfold singleScalarSpec
  infer_instance

/-- The single JSON type name of a concrete value (the spec side of C10). -/
def jsonTypeName : Json → String
  | Json.null => "null"
  | Json.bool _ => "boolean"
  | Json.num _ => "number"
  | Json.str _ => "string"
  | Json.arr _ => "array"
  | Json.obj _ => "object"

/-- Whether a concrete value is a numeric value that is an exact integer
(spec side of C10; see `ENumber` for the modelling note). -/
def isExactIntegerNum : Json → Bool
  | Json.num (ENumber.signed _) => true
  | Json.num (ENumber.unsigned _) => true
  | _ => false

/-- C9: for every TypeSet `s`, `is_single_scalar_type s` is true exactly when
the set `s` with null removed is one of the singleton sets
{integer}, {boolean}, {string}, {number}. -/
theorem c9_is_single_scalar_type (s : types.Set) (hs : s < 128) :
    types.Set.is_single_scalar_type s = true ↔ singleScalarSpec s := by
  have h : ∀ t : Fin 128, types.Set.is_single_scalar_type t.val = true ↔ singleScalarSpec t.val := by
    decide
  exact h ⟨s, hs⟩

/-- C9 witness: evaluated at `STRING | NULL` (= 72), which is a single scalar
type. -/
theorem c9_is_single_scalar_type_witness :
    (72 : Nat) < 128 ∧ singleScalarSpec 72 := by
  refine ⟨by decide, ?_⟩
  exact (c9_is_single_scalar_type 72 (by decide)).mp (by decide)

/-- C10: for every concrete JSON value, `for_value` returns exactly the
singleton TypeSet of the value's JSON type, except that numeric values that
are exact integers yield `NUMBER | INTEGER`. -/
theorem c10_for_value (v : Json) :
    types.for_value v =
      (if isExactIntegerNum v then types.NUMBER ||| types.INTEGER
       else (types.for_type_name (jsonTypeName v)).getD types.INVALID) := by
  cases v with
  | num n => cases n <;> rfl
  | null => rfl
  | bool b => rfl
  | str s => rfl
  | arr l => rfl
  | obj m => rfl

end Flow

/-! ## Data model of the capture session (`crates/runtime/src/capture/protocol.rs`)

Collaborator types that the protocol functions use (documents, memtables,
shapes, the RocksDB write batch, the `verify` helper) live outside the
extracted sources and are modelled from the spec; the protocol functions
themselves are embedded statement by statement from `protocol.rs`. -/

namespace Flow

/-- Modelled from the spec: the single process-wide UUID placeholder constant
(`crate::UUID_PLACEHOLDER`), "a fixed string chosen so downstream systems can
substitute a real UUID".  The exact text is immaterial to every claim. -/
def UUID_PLACEHOLDER : String := "DocUUIDPlaceholder-329Bb50aa48EAa9ef"

/-- Modelled from the spec: the reserved connector-state key of the
checkpoint store (`RocksDB::CONNECTOR_STATE_KEY`), written with JSON
merge-patch semantics. -/
def CONNECTOR_STATE_KEY : String := "connector-state"

/-- Modelled from the spec: the reserved runtime-checkpoint key of the
checkpoint store (`RocksDB::CHECKPOINT_KEY`), overwritten on write. -/
def CHECKPOINT_KEY : String := "checkpoint"

/-- Incoming or outgoing counters of one stats entry (`ops::stats::DocsAndBytes`). -/
structure DocsAndBytes where
  docs_total : Nat
  bytes_total : Nat
deriving DecidableEq

instance : Inhabited DocsAndBytes := ⟨⟨0, 0⟩⟩

/-- One binding's `(incoming, outgoing)` stats pair. -/
abbrev StatsPair := DocsAndBytes × DocsAndBytes

/-- `txn.stats.entry(binding).or_default()` followed by incrementing the
incoming side by one document and `bytes` bytes.  The `BTreeMap` is modelled
as an association list; insertion position differs from a sorted map but no
claim depends on iteration order. -/
def statsIncIn (l : List (Nat × StatsPair)) (b : Nat) (bytes : Nat) : List (Nat × StatsPair) :=
  match l with
  | [] => [(b, (⟨1, bytes⟩, ⟨0, 0⟩))]
  | (k, v) :: rest =>
      if k = b then (k, (⟨v.1.docs_total + 1, v.1.bytes_total + bytes⟩, v.2)) :: rest
      else (k, v) :: statsIncIn rest b bytes

/-- `txn.stats.entry(binding).or_default()` followed by incrementing the
outgoing side by one document and `bytes` bytes. -/
def statsIncOut (l : List (Nat × StatsPair)) (b : Nat) (bytes : Nat) : List (Nat × StatsPair) :=
  match l with
  | [] => [(b, (⟨0, 0⟩, ⟨1, bytes⟩))]
  | (k, v) :: rest =>
      if k = b then (k, (v.1, ⟨v.2.docs_total + 1, v.2.bytes_total + bytes⟩)) :: rest
      else (k, v) :: statsIncOut rest b bytes

/-- Look up a binding's stats pair, defaulting to zeroes (the map's
`or_default` view). -/
def statsGet (l : List (Nat × StatsPair)) (b : Nat) : StatsPair :=
  match l with
  | [] => (default, default)
  | (k, v) :: rest => if k = b then v else statsGet rest b

/-- The sum over all bindings of the incoming `docs_total` recorded in a
stats map. -/
def incomingDocsSum (l : List (Nat × StatsPair)) : Nat :=
  (l.map fun p => p.2.1.docs_total).sum

/-- The number of add-log entries whose binding index is below `n`. -/
def addsBelow (n : Nat) (l : List (Nat × Json)) : Nat :=
  (l.filter fun p => decide (p.1 < n)).length

/-- One stream's immutable descriptor within the open capture (`Task`'s
binding entry).  Extractors are JSON-pointer token lists. -/
structure Binding where
  collection_name : String := ""
  key_extractors : List (List String) := []
  partition_extractors : List (List String) := []
  document_uuid_ptr : List String := []
  state_key : String := ""
deriving DecidableEq, Inhabited

/-- The open session snapshot (`Task`).  `task.restart` is a monotonic
deadline; only the elapsed duration observed at poll time matters, modelled
as `restart_elapsed` (zero exactly when `elapsed().is_zero()`). -/
structure Task where
  bindings : List Binding := []
  explicit_acknowledgements : Bool := false
  restart_elapsed : Nat := 0
deriving DecidableEq, Inhabited

/-- The mutable per-poll-cycle transaction state (`Transaction`).
`started_at` is wall-clock observability only and is not modelled. -/
structure Transaction where
  checkpoints : Nat := 0
  connector_eof : Bool := false
  captured_bytes : Nat := 0
  stats : List (Nat × StatsPair) := []
  updated_inferences : Finset Nat := ∅
deriving DecidableEq

/-- Modelled from the spec: the accumulating side of a
`doc::combine::Accumulator`.  Only the ordered log of successful
`memtable.add(binding, doc, ..)` calls is relevant to the claims; the
combine itself happens at drain.  The `full_reduce` flag is `false` at both
call sites in `protocol.rs` and is not recorded. -/
structure Accumulator where
  adds : List (Nat × Json) := []

/-- A successful `memtable.add` call: append to the add log. -/
def Accumulator.add (acc : Accumulator) (binding : Nat) (doc : Json) : Accumulator :=
  { acc with adds := acc.adds ++ [(binding, doc)] }

/-- Session error taxonomy.  Modelled from the spec: the runtime's `verify`
helper produces protocol-mismatch errors carrying the offending party and the
expected message name; `anyhow::Context` errors carry only a message. -/
inductive Error where
  | protocolMismatch (party : String) (expected : String)
  | context (msg : String)
deriving DecidableEq

/-- Whether an error is a party-naming protocol mismatch. -/
def Error.isProtocolMismatch : Error → Bool
  | .protocolMismatch _ _ => true
  | _ => false

/-- Modelled from the spec: `verify(party, expected).fail(..)` — "a mismatch
produces a `ProtocolMismatch` error naming the party (`connector` or
`client`) and the expected message". -/
def protocolError (party expected : String) : Error :=
  .protocolMismatch party expected

/-- `capture_response_ext::PollResult`. -/
inductive PollResult where
  | invalid
  | ready
  | coolOff
  | restart
  | notReady
deriving DecidableEq

/-- `flow::ConnectorState`. -/
structure ConnectorState where
  updated_json : String
  merge_patch : Bool
deriving DecidableEq

/-- `response::Captured`. -/
structure response.Captured where
  binding : Nat
  doc_json : String
deriving DecidableEq

/-- `response::Checkpoint`. -/
structure response.Checkpoint where
  state : Option ConnectorState
deriving DecidableEq

/-- `request::Acknowledge`. -/
structure request.Acknowledge where
  checkpoints : Nat
deriving DecidableEq

/-- `capture_response_ext::Captured` (the internal extension attached to a
drained document: packed key and packed partition tuple). -/
structure capture_response_ext.Captured where
  key_packed : String
  partitions_packed : String
deriving DecidableEq

/-- `capture_response_ext::Checkpoint` (the internal extension attached to a
checkpoint response).  The stats payload's structure is irrelevant to the
claims and is modelled as a presence flag. -/
structure capture_response_ext.Checkpoint where
  stats : Option Unit
  poll_result : PollResult
deriving DecidableEq

/-- A connector/client response frame (`proto_flow::capture::Response`),
restricted to the fields `protocol.rs` reads or writes.  Unary response
payloads are presence flags. -/
structure Response where
  spec : Option Unit := none
  discovered : Option Unit := none
  validated : Option Unit := none
  applied : Option Unit := none
  opened : Option Unit := none
  captured : Option response.Captured := none
  checkpoint : Option response.Checkpoint := none
  internal_captured : Option capture_response_ext.Captured := none
  internal_checkpoint : Option capture_response_ext.Checkpoint := none
deriving DecidableEq

/-- A request frame (`proto_flow::capture::Request`), restricted to the
fields `protocol.rs` reads or writes. -/
structure Request where
  spec : Option Unit := none
  discover : Option Unit := none
  validate : Option Unit := none
  apply : Option Unit := none
  acknowledge : Option request.Acknowledge := none
deriving DecidableEq

/-- A RocksDB write-batch mutation. -/
inductive WbOp where
  | put (key : String) (value : String)
  | merge (key : String) (value : String)
deriving DecidableEq

/-- Modelled from the spec: the pending atomic `rocksdb::WriteBatch`, as the
ordered list of its mutations. -/
structure WriteBatch where
  ops : List WbOp := []
deriving DecidableEq

/-- Append a `merge` mutation to a write batch (`wb.merge(key, value)`). -/
def WriteBatch.merge (wb : WriteBatch) (key value : String) : WriteBatch :=
  { wb with ops := wb.ops ++ [WbOp.merge key value] }

/-! ### Pointer and merge-patch helpers (modelled `doc` crate pieces) -/

/-- Ordered association-list lookup on object members. -/
def lookupMember (l : List (String × Json)) (k : String) : Option Json :=
  match l with
  | [] => none
  | (k2, v2) :: rest => if k2 = k then some v2 else lookupMember rest k

/-- Remove a key from object members. -/
def removeKey (l : List (String × Json)) (k : String) : List (String × Json) :=
  l.filter fun p => decide (p.1 ≠ k)

/-- Replace the value at a key, or append the pair when absent. -/
def upsert (l : List (String × Json)) (k : String) (v : Json) : List (String × Json) :=
  match l with
  | [] => [(k, v)]
  | (k2, v2) :: rest => if k2 = k then (k2, v) :: rest else (k2, v2) :: upsert rest k v

/-- Modelled from the spec (I4): `uuid_ptr.create_heap_node` followed by
assigning the UUID placeholder string — create the location named by the
pointer inside nested objects and set it to the placeholder; `none` when the
pointer cannot be created (a non-object stands in the way), in which case the
document is left unchanged. -/
def injectPlaceholder : List String → Json → Option Json
  | [], _ => some (Json.str UUID_PLACEHOLDER)
  | tok :: rest, Json.obj members =>
      match injectPlaceholder rest ((lookupMember members tok).getD Json.null) with
      | some v => some (Json.obj (upsert members tok v))
      | none => none
  | _ :: _, _ => none

/-- Evaluate a JSON pointer against a document, `null` when absent. -/
def getAtPointer : Json → List String → Json
  | d, [] => d
  | Json.obj m, tok :: rest => getAtPointer ((lookupMember m tok).getD Json.null) rest
  | _, _ :: _ => Json.null

/-- Modelled from the spec: `doc::Extractor::extract_all_owned` packs the
values extracted at the given pointers into a length-delimited tuple
encoding; modelled as the concatenation of the serialized extracted values
(no claim depends on the packing format). -/
def extract_all_owned (root : Json) (extractors : List (List String)) : String :=
  String.join (extractors.map fun p => serializeJson (getAtPointer root p))

mutual

/-- Modelled from the spec (glossary): JSON merge-patch — "recursive object
merge where `null` deletes keys; non-object values replace". -/
def jsonMergePatch : Json → Json → Json
  | target, Json.obj pm =>
      Json.obj (mergePatchMembers (match target with | Json.obj tm => tm | _ => []) pm)
  | _, patch => patch

/-- Apply the members of an object patch to base members, left to right. -/
def mergePatchMembers : List (String × Json) → List (String × Json) → List (String × Json)
  | base, [] => base
  | base, (k, v) :: rest =>
      match v with
      | Json.null => mergePatchMembers (removeKey base k) rest
      | _ =>
          mergePatchMembers (upsert base k (jsonMergePatch ((lookupMember base k).getD Json.null) v)) rest

end

/-- Modelled from the spec (§4.3): the connector-state slot's reducer folds
each added document into the accumulated state with JSON merge-patch; an
added `null` resets the slot. -/
def stateFold (init : Json) (docs : List Json) : Json :=
  docs.foldl jsonMergePatch init

/-! ### Shape inference (modelled) -/

/-- Modelled from the spec: `doc::Shape`, "a summarized JSON Schema inferred
from observed documents", abstracted to the set of root-level JSON types
observed (a `types::Set`).  The claims depend only on `widen` reporting
whether the shape changed, never on the shape's contents. -/
abbrev Shape := types.Set

/-- Modelled from the spec: `shape.widen_owned(doc)` — widen the shape by the
document and report whether the shape changed. -/
def Shape.widen_owned (s : Shape) (doc : Json) : Bool × Shape :=
  let s2 := s ||| types.for_value doc
  (decide (s2 ≠ s), s2)

/-- Modelled from the spec: the single deterministic complexity-limit
constant (`doc::shape::limits::DEFAULT_SCHEMA_COMPLEXITY_LIMIT`). -/
def DEFAULT_SCHEMA_COMPLEXITY_LIMIT : Nat := 10000

/-- Modelled from the spec: `enforce_shape_complexity_limit` bounds
object-property, enum and nesting growth; a root-level type set never
exceeds the limit, so the modelled enforcement is the identity. -/
def enforce_shape_complexity_limit (shape : Shape) (_limit : Nat) : Shape :=
  shape

end Flow

/-! ## The protocol functions of `crates/runtime/src/capture/protocol.rs` -/

namespace Flow

/-- `recv_unary` (protocol.rs:14): strict pairing of a unary request with its
matching response kind. -/
def recv_unary (request : Request) (response : Response) : Except Error Response :=
  if request.spec.isSome && response.spec.isSome then .ok response
  else if request.spec.isSome then .error (protocolError "connector" "Spec")
  else if request.discover.isSome && response.discovered.isSome then .ok response
  else if request.discover.isSome then .error (protocolError "connector" "Discovered")
  else if request.validate.isSome && response.validated.isSome then .ok response
  else if request.validate.isSome then .error (protocolError "connector" "Validated")
  else if request.apply.isSome && response.applied.isSome then .ok response
  else if request.apply.isSome then .error (protocolError "connector" "Applied")
  else .error (protocolError "client" "unary request")

/-- `recv_connector_opened` (protocol.rs:66), restricted to its verification
step (line 79): `verify("connecter", "Opened").not_eof(opened)?`.  The rest of
the function (Task allocation, the accumulator pair, checkpoint loading and
the outbound internal extension) acts on external collaborators and is not
needed by any claim.  Note the source's party string is spelled
`"connecter"`. -/
def recv_connector_opened (opened : Option Response) : Except Error Response :=
  match opened with
  | none => .error (protocolError "connecter" "Opened")
  | some o => .ok o

/-- `send_client_poll_result` (protocol.rs:100): compute the transaction's
`PollResult` and reply with an internal checkpoint carrying it; the returned
boolean reports whether the result was `Ready`. -/
def send_client_poll_result (task : Task) (txn : Transaction) : Bool × Response :=
  let poll_result :=
    if txn.checkpoints ≠ 0 then PollResult.ready
    else if txn.connector_eof = true ∧ task.restart_elapsed ≠ 0 then PollResult.restart
    else if txn.connector_eof then PollResult.coolOff
    else PollResult.notReady
  (decide (poll_result = PollResult.ready),
   { checkpoint := some { state := none },
     internal_checkpoint := some { stats := none, poll_result := poll_result } })

/-- `send_connector_acknowledge` (protocol.rs:130): emit an `Acknowledge`
frame carrying the accumulated checkpoint count only when acknowledgements
are explicit and the count is non-zero, resetting the counter; the first
component is the counter after the call (`*last_checkpoints`). -/
def send_connector_acknowledge (last_checkpoints : Nat) (task : Task) : Nat × Option Request :=
  if last_checkpoints ≠ 0 ∧ task.explicit_acknowledgements = true then
    (0, some { acknowledge := some { checkpoints := last_checkpoints } })
  else
    (last_checkpoints, none)

/-- `recv_connector_captured` (protocol.rs:314): parse the captured document,
inject the UUID placeholder when the binding declares a pointer, add the
document to the accumulating memtable, and record incoming stats and
captured bytes. -/
def recv_connector_captured (accumulator : Accumulator) (captured : response.Captured)
    (task : Task) (txn : Transaction) : Except Error (Accumulator × Transaction) :=
  match parse_json_str captured.doc_json with
  | none => .error (.context "couldn't parse captured document as JSON")
  | some doc0 =>
      match task.bindings[captured.binding]? with
      | none => .error (.context "invalid captured binding \x7bbinding\x7d")
      | some binding =>
          let doc :=
            if binding.document_uuid_ptr ≠ [] then
              match injectPlaceholder binding.document_uuid_ptr doc0 with
              | some d => d
              | none => doc0
            else doc0
          let acc := accumulator.add captured.binding doc
          let txn2 := { txn with
            stats := statsIncIn txn.stats captured.binding captured.doc_json.length,
            captured_bytes := txn.captured_bytes + captured.doc_json.length }
          .ok (acc, txn2)

/-- `recv_connector_checkpoint` (protocol.rs:350): require a `Checkpoint`
response carrying a state, parse `updated_json`, add a leading `null` to the
connector-state slot when `merge_patch` is false, add the parsed document,
and increment `txn.checkpoints`. -/
def recv_connector_checkpoint (accumulator : Accumulator) (resp : Response)
    (task : Task) (txn : Transaction) : Except Error (Accumulator × Transaction) :=
  match resp.checkpoint with
  | some { state := some state } =>
      match parse_json_str state.updated_json with
      | none => .error (.context "couldn't parse connector state as JSON")
      | some doc =>
          let acc :=
            if !state.merge_patch then accumulator.add task.bindings.length Json.null
            else accumulator
          let acc := acc.add task.bindings.length doc
          .ok (acc, { txn with checkpoints := txn.checkpoints + 1 })
  | _ => .error (protocolError "connector" "Captured or Checkpoint with state")

/-- One entry yielded by the drain iterator (`doc::combine::DrainedDoc`):
the combined document and its binding index (`meta.binding()`). -/
structure DrainedDoc where
  binding : Nat
  root : Json

/-- The four outputs threaded through `send_client_captured_or_checkpoint`
via `&mut` in the source. -/
structure SendResult where
  shapes : List Shape
  txn : Transaction
  wb : WriteBatch
  response : Response

/-- `send_client_captured_or_checkpoint` (protocol.rs:144): a drained entry
at the reserved state slot (`index == task.bindings.len()`) becomes the
merged-state client `Checkpoint` and a pending `merge` of the same serialized
string at `CONNECTOR_STATE_KEY`; any other entry becomes a client `Captured`
frame with packed key and partitions, outgoing stats, and shape widening
(marking `updated_inferences` on change). -/
def send_client_captured_or_checkpoint (drained : DrainedDoc) (shapes : List Shape)
    (task : Task) (txn : Transaction) (wb : WriteBatch) : SendResult :=
  let index := drained.binding
  if index = task.bindings.length then
    let updated_json := serializeJson drained.root
    let wb := wb.merge CONNECTOR_STATE_KEY updated_json
    let state : ConnectorState := { updated_json := updated_json, merge_patch := true }
    { shapes := shapes, txn := txn, wb := wb,
      response := { checkpoint := some { state := some state } } }
  else
    let binding := task.bindings.getD index default
    let key_packed := extract_all_owned drained.root binding.key_extractors
    let partitions_packed := extract_all_owned drained.root binding.partition_extractors
    let doc_json := serializeJson drained.root
    let txn := { txn with stats := statsIncOut txn.stats index doc_json.length }
    let (changed, widened) := (shapes.getD index 0).widen_owned drained.root
    let shapes := shapes.set index widened
    let (shapes, txn) :=
      if changed then
        (shapes.set index (enforce_shape_complexity_limit widened DEFAULT_SCHEMA_COMPLEXITY_LIMIT),
         { txn with updated_inferences := insert index txn.updated_inferences })
      else (shapes, txn)
    { shapes := shapes, txn := txn, wb := wb,
      response := { captured := some { binding := index, doc_json := doc_json },
                    internal_captured :=
                      some { key_packed := key_packed, partitions_packed := partitions_packed } } }

/-! ### Transaction traces

The session's serve loop (outside `protocol.rs`) dispatches each connector
frame to `recv_connector_captured` when it is a `Captured` response and to
`recv_connector_checkpoint` otherwise.  A transaction's connector input is a
list of such frames. -/

/-- One connector frame of a transaction. -/
inductive ConnectorMsg where
  | captured (c : response.Captured)
  | checkpoint (r : Response)

/-- Dispatch one connector frame (modelled from the spec's transaction
description: captured frames and checkpoint frames, in any order). -/
def txn_step (task : Task) (st : Accumulator × Transaction) (m : ConnectorMsg) :
    Except Error (Accumulator × Transaction) :=
  match m with
  | .captured c => recv_connector_captured st.1 c task st.2
  | .checkpoint r => recv_connector_checkpoint st.1 r task st.2

/-- Process a transaction's connector frames from a starting state, stopping
at the first error. -/
def txn_run (task : Task) : Accumulator × Transaction → List ConnectorMsg →
    Except Error (Accumulator × Transaction)
  | st, [] => .ok st
  | st, m :: rest =>
      match txn_step task st m with
      | .ok st1 => txn_run task st1 rest
      | .error e => .error e

/-! ### Concrete fixtures used by counterexamples and witnesses -/

/-- A binding with no extractors and no UUID pointer. -/
def binding0 : Binding := {}

/-- A one-binding task (`N = 1`). -/
def task1 : Task := { bindings := [binding0] }

/-- The fresh transaction state at the start of a poll cycle. -/
def freshState : Accumulator × Transaction := ({}, {})

end Flow

/-! ## Claim theorems -/

namespace Flow

/-- C1: for every poll request, the session's `PollResult` follows the
decision table — `Ready` when `checkpoints > 0`; else `Restart` when
`connector_eof` and the restart deadline's elapsed time is non-zero; else
`CoolOff` when `connector_eof`; else `NotReady` — and the boolean returned
alongside the response is true exactly when the result is `Ready`. -/
theorem c1_poll_result_decision_table (task : Task) (txn : Transaction) :
    ∃ ext : capture_response_ext.Checkpoint,
      (send_client_poll_result task txn).2.internal_checkpoint = some ext
      ∧ ext.stats = none
      ∧ (ext.poll_result = PollResult.ready ↔ 0 < txn.checkpoints)
      ∧ (ext.poll_result = PollResult.restart ↔
           txn.checkpoints = 0 ∧ txn.connector_eof = true ∧ task.restart_elapsed ≠ 0)
      ∧ (ext.poll_result = PollResult.coolOff ↔
           txn.checkpoints = 0 ∧ txn.connector_eof = true ∧ task.restart_elapsed = 0)
      ∧ (ext.poll_result = PollResult.notReady ↔
           txn.checkpoints = 0 ∧ txn.connector_eof = false)
      ∧ ((send_client_poll_result task txn).1 = true ↔ ext.poll_result = PollResult.ready) := by
  by_cases h1 : txn.checkpoints = 0
  · by_cases h2 : txn.connector_eof = true
    · by_cases h3 : task.restart_elapsed = 0
      · exact ⟨⟨none, PollResult.coolOff⟩,
          by simp [send_client_poll_result, h1, h2, h3],
          rfl, by simp [h1], by simp [h3], by simp [h1, h2, h3], by simp [h2],
          by simp [send_client_poll_result, h1, h2, h3]⟩
      · exact ⟨⟨none, PollResult.restart⟩,
          by simp [send_client_poll_result, h1, h2, h3],
          rfl, by simp [h1], by simp [h1, h2, h3], by simp [h3], by simp [h2],
          by simp [send_client_poll_result, h1, h2, h3]⟩
    · have h2' : txn.connector_eof = false := by
        cases hh : txn.connector_eof <;> simp_all
      exact ⟨⟨none, PollResult.notReady⟩,
        by simp [send_client_poll_result, h1, h2'],
        rfl, by simp [h1], by simp [h2'], by simp [h2'], by simp [h1, h2'],
        by simp [send_client_poll_result, h1, h2']⟩
  · exact ⟨⟨none, PollResult.ready⟩,
      by simp [send_client_poll_result, h1],
      rfl, by simp [h1]; omega, by simp [h1], by simp [h1], by simp [h1],
      by simp [send_client_poll_result, h1]⟩

/-- C5: `send_connector_acknowledge` returns an `Acknowledge` frame carrying
the accumulated count iff `task.explicit_acknowledgements` is true and the
count is non-zero; the counter is reset to zero exactly when a frame is
returned (in particular, with `explicit_acknowledgements = false` no frame is
ever emitted). -/
theorem c5_acknowledge_gating (last_checkpoints : Nat) (task : Task) :
    ((send_connector_acknowledge last_checkpoints task).2
        = some { acknowledge := some { checkpoints := last_checkpoints } } ↔
       task.explicit_acknowledgements = true ∧ last_checkpoints ≠ 0)
    ∧ ((send_connector_acknowledge last_checkpoints task).2 = none ↔
       task.explicit_acknowledgements = false ∨ last_checkpoints = 0)
    ∧ (send_connector_acknowledge last_checkpoints task).1
        = (if (send_connector_acknowledge last_checkpoints task).2.isSome
           then 0 else last_checkpoints) := by
  by_cases h1 : last_checkpoints = 0
  · simp [send_connector_acknowledge, h1]
  · by_cases h2 : task.explicit_acknowledgements = true
    · simp [send_connector_acknowledge, h1, h2]
    · have h2' : task.explicit_acknowledgements = false := by
        cases hh : task.explicit_acknowledgements <;> simp_all
      simp [send_connector_acknowledge, h1, h2']

/-- C7 (code-bug evaluation): when the connector stream ends instead of
producing `Opened`, the session's protocol-mismatch error names the party
with the misspelled string `"connecter"` (protocol.rs line 79), violating the
claim that every such error names the party as exactly `"connector"` or
`"client"`. -/
theorem c7_opened_party_misspelled :
    recv_connector_opened none
      = .error (Error.protocolMismatch "connecter" "Opened")
    ∧ "connecter" ≠ "connector" :=
  ⟨rfl, by decide⟩

/-- C2: a valid connector `Checkpoint` frame carrying state
`{updated_json, merge_patch}` adds `[null, doc]` to the connector-state slot
(binding index `N = task.bindings.length`) when `merge_patch` is false and
`[doc]` alone when it is true, increments `txn.checkpoints` by exactly one,
and leaves stats and inferences untouched; the `null` prefix makes the folded
slot state independent of whatever was accumulated before (a full
replacement). -/
theorem c2_checkpoint_state_adds (acc : Accumulator) (task : Task) (txn : Transaction)
    (uj : String) (mp : Bool) (d : Json)
    (hparse : parse_json_str uj = some d) :
    ∃ acc2 txn2,
      recv_connector_checkpoint acc
          { checkpoint := some { state := some { updated_json := uj, merge_patch := mp } } }
          task txn
        = .ok (acc2, txn2)
      ∧ acc2.adds = acc.adds
          ++ (if mp then [(task.bindings.length, d)]
              else [(task.bindings.length, Json.null), (task.bindings.length, d)])
      ∧ txn2.checkpoints = txn.checkpoints + 1
      ∧ txn2.stats = txn.stats
      ∧ txn2.updated_inferences = txn.updated_inferences
      ∧ (mp = false → ∀ a b : Json,
           stateFold a [Json.null, d] = stateFold b [Json.null, d]) := by
  cases mp
  · refine ⟨(acc.add task.bindings.length Json.null).add task.bindings.length d,
      { txn with checkpoints := txn.checkpoints + 1 }, ?_, ?_, rfl, rfl, rfl, ?_⟩
    · simp [recv_connector_checkpoint, hparse]
    · simp [Accumulator.add]
    · intro _ a b
      simp [stateFold, jsonMergePatch]
  · refine ⟨acc.add task.bindings.length d,
      { txn with checkpoints := txn.checkpoints + 1 }, ?_, ?_, rfl, rfl, rfl, ?_⟩
    · simp [recv_connector_checkpoint, hparse]
    · simp [Accumulator.add]
    · intro h
      exact absurd h (by simp)

/-- C2 witness: evaluated at the one-binding task with state `"7"` and
`merge_patch = true`. -/
theorem c2_checkpoint_state_adds_witness :
    parse_json_str "7" = some (Json.num (ENumber.unsigned 7))
    ∧ ∃ acc2 txn2,
        recv_connector_checkpoint {}
            { checkpoint := some { state := some { updated_json := "7", merge_patch := true } } }
            task1 {}
          = .ok (acc2, txn2)
        ∧ acc2.adds = [(1, Json.num (ENumber.unsigned 7))]
        ∧ txn2.checkpoints = 1 := by
  refine ⟨rfl, ?_⟩
  obtain ⟨acc2, txn2, h1, h2, h3, -, -, -⟩ :=
    c2_checkpoint_state_adds {} task1 {} "7" true (Json.num (ENumber.unsigned 7)) rfl
  refine ⟨acc2, txn2, h1, ?_, ?_⟩
  · simpa using h2
  · simpa using h3

end Flow

namespace Flow

/-- C6 counterexample: at the one-binding task, a valid-JSON `Captured` frame
with binding index 1 (= N) is rejected, but with a plain context error that
carries no party or expected-message data — not a `ProtocolMismatch` as the
claim states. -/
theorem c6_invalid_binding_counterexample :
    recv_connector_captured {} { binding := 1, doc_json := "null" } task1 {}
      = .error (Error.context "invalid captured binding \x7bbinding\x7d")
    ∧ Error.isProtocolMismatch (Error.context "invalid captured binding \x7bbinding\x7d")
        = false :=
  ⟨rfl, rfl⟩

/-- C6 (amended): a valid-JSON `Captured` frame whose binding index is ≥ N is
rejected with the `"invalid captured binding"` context error — an error that
is not a party-naming `ProtocolMismatch` — and nothing is added; a binding
index in `0..N` is accepted and adds exactly one document. -/
theorem c6_invalid_binding_rejected (acc : Accumulator) (c : response.Captured)
    (task : Task) (txn : Transaction) (d : Json)
    (hparse : parse_json_str c.doc_json = some d) :
    (task.bindings.length ≤ c.binding →
       recv_connector_captured acc c task txn
         = .error (Error.context "invalid captured binding \x7bbinding\x7d")
       ∧ ∀ e, recv_connector_captured acc c task txn = .error e →
           e.isProtocolMismatch = false)
    ∧ (c.binding < task.bindings.length →
       ∃ acc2 txn2, recv_connector_captured acc c task txn = .ok (acc2, txn2)
         ∧ acc2.adds.length = acc.adds.length + 1) := by
  constructor
  · intro h
    have hnone : task.bindings[c.binding]? = none := by
      rw [List.getElem?_eq_none_iff]
      exact h
    constructor
    · simp [recv_connector_captured, hparse, hnone]
    · intro e he
      rw [recv_connector_captured, hparse, hnone] at he
      cases he
      rfl
  · intro h
    have hsome : task.bindings[c.binding]? = some task.bindings[c.binding] :=
      List.getElem?_eq_getElem h
    simp only [recv_connector_captured, hparse, hsome]
    exact ⟨_, _, rfl, by simp [Accumulator.add]⟩

/-- C6 witness: both hypotheses of the amended claim discharged at concrete
inputs — the rejection side at binding 1 of the one-binding task, the
acceptance side at binding 0. -/
theorem c6_invalid_binding_rejected_witness :
    recv_connector_captured {} { binding := 1, doc_json := "true" } task1 {}
      = .error (Error.context "invalid captured binding \x7bbinding\x7d")
    ∧ ∃ acc2 txn2,
        recv_connector_captured {} { binding := 0, doc_json := "true" } task1 {}
          = .ok (acc2, txn2)
        ∧ acc2.adds.length = 1 := by
  constructor
  · exact (c6_invalid_binding_rejected {} { binding := 1, doc_json := "true" } task1 {}
      (Json.bool true) rfl).1 (by simp [task1]) |>.1
  · obtain ⟨acc2, txn2, h1, h2⟩ :=
      (c6_invalid_binding_rejected {} { binding := 0, doc_json := "true" } task1 {}
        (Json.bool true) rfl).2 (by simp [task1])
    exact ⟨acc2, txn2, h1, by simpa using h2⟩

/-- C4 counterexample: processing an incoming `Captured` frame does not widen
any shape and does not touch `txn.updated_inferences` (the function does not
even receive the shape table): after accepting the frame at the one-binding
task the set is still empty, although widening the fresh shape by that very
document would have reported a change. -/
theorem c4_no_widen_on_receive_counterexample :
    (recv_connector_captured {} { binding := 0, doc_json := "1" } task1 {}).map
        (fun st => st.2.updated_inferences) = .ok (∅ : Finset Nat)
    ∧ (Shape.widen_owned 0 (Json.num (ENumber.unsigned 1))).1 = true :=
  ⟨rfl, rfl⟩

/-- C4 (amended): shape widening happens per drained document, inside
`send_client_captured_or_checkpoint`: for a drained entry with binding index
below N the binding's shape is widened by the drained document (with the
complexity limit enforced on change) and the index is inserted into
`txn.updated_inferences` exactly when the shape changed — while
`recv_connector_captured` never changes `updated_inferences`. -/
theorem c4_widen_on_drain (drained : DrainedDoc) (shapes : List Shape) (task : Task)
    (txn : Transaction) (wb : WriteBatch)
    (h : drained.binding < task.bindings.length) :
    ((send_client_captured_or_checkpoint drained shapes task txn wb).shapes
        = shapes.set drained.binding
            (enforce_shape_complexity_limit
              ((shapes.getD drained.binding 0).widen_owned drained.root).2
              DEFAULT_SCHEMA_COMPLEXITY_LIMIT)
      ∧ (send_client_captured_or_checkpoint drained shapes task txn wb).txn.updated_inferences
        = (if ((shapes.getD drained.binding 0).widen_owned drained.root).1
           then insert drained.binding txn.updated_inferences
           else txn.updated_inferences))
    ∧ (∀ acc c txn0 acc1 txn1,
         recv_connector_captured acc c task txn0 = .ok (acc1, txn1) →
           txn1.updated_inferences = txn0.updated_inferences) := by
  have hne : drained.binding ≠ task.bindings.length := Nat.ne_of_lt h
  refine ⟨⟨?_, ?_⟩, ?_⟩
  · by_cases hch : (shapes[drained.binding]?.getD 0 ||| types.for_value drained.root)
        = shapes[drained.binding]?.getD 0
    · simp [send_client_captured_or_checkpoint, hne, Shape.widen_owned,
        enforce_shape_complexity_limit, List.set_set, hch]
    · simp [send_client_captured_or_checkpoint, hne, Shape.widen_owned,
        enforce_shape_complexity_limit, List.set_set, hch]
  · by_cases hch : (shapes[drained.binding]?.getD 0 ||| types.for_value drained.root)
        = shapes[drained.binding]?.getD 0
    · simp [send_client_captured_or_checkpoint, hne, Shape.widen_owned, hch]
    · simp [send_client_captured_or_checkpoint, hne, Shape.widen_owned, hch]
  · intro acc c txn0 acc1 txn1 h1
    rw [recv_connector_captured] at h1
    cases hp : parse_json_str c.doc_json with
    | none => rw [hp] at h1; cases h1
    | some d0 =>
        rw [hp] at h1
        cases hb : task.bindings[c.binding]? with
        | none => rw [hb] at h1; cases h1
        | some b =>
            rw [hb] at h1
            cases h1
            rfl

end Flow

namespace Flow

/-- C8: a drained entry at the connector-state slot (binding index
`N = task.bindings.length`) is emitted as a client `Checkpoint` whose
`ConnectorState` always carries `merge_patch = true`, the identical
serialized string is simultaneously appended as a `merge` at
`CONNECTOR_STATE_KEY` to the pending write batch, and neither stats nor
shapes are touched (no outgoing stats entry for the state slot). -/
theorem c8_state_slot_drain (drained : DrainedDoc) (shapes : List Shape) (task : Task)
    (txn : Transaction) (wb : WriteBatch)
    (h : drained.binding = task.bindings.length) :
    (send_client_captured_or_checkpoint drained shapes task txn wb).response.checkpoint
        = some { state := some { updated_json := serializeJson drained.root,
                                 merge_patch := true } }
    ∧ (send_client_captured_or_checkpoint drained shapes task txn wb).response.captured = none
    ∧ (send_client_captured_or_checkpoint drained shapes task txn wb).wb.ops
        = wb.ops ++ [WbOp.merge CONNECTOR_STATE_KEY (serializeJson drained.root)]
    ∧ (send_client_captured_or_checkpoint drained shapes task txn wb).txn = txn
    ∧ (send_client_captured_or_checkpoint drained shapes task txn wb).shapes = shapes := by
  refine ⟨?_, ?_, ?_, ?_, ?_⟩ <;>
    simp [send_client_captured_or_checkpoint, h, WriteBatch.merge]

/-- C8 witness: evaluated at the zero-binding task (`N = 0`) with the drained
state document `null`. -/
theorem c8_state_slot_drain_witness :
    (send_client_captured_or_checkpoint ⟨0, Json.null⟩ [] {} {} {}).response.checkpoint
      = some { state := some { updated_json := "null", merge_patch := true } }
    ∧ (send_client_captured_or_checkpoint ⟨0, Json.null⟩ [] {} {} {}).wb.ops
      = [WbOp.merge CONNECTOR_STATE_KEY "null"] := by
  obtain ⟨h1, -, h3, -, -⟩ := c8_state_slot_drain ⟨0, Json.null⟩ [] {} {} {} rfl
  exact ⟨h1, by simpa using h3⟩

end Flow

/-! ## Stats-conservation machinery (C3) -/

namespace Flow

theorem default_docsAndBytes : (default : DocsAndBytes) = ⟨0, 0⟩ := rfl

theorem incomingDocsSum_statsIncIn (l : List (Nat × StatsPair)) (b bytes : Nat) :
    incomingDocsSum (statsIncIn l b bytes) = incomingDocsSum l + 1 := by
  induction l with
  | nil => simp [statsIncIn, incomingDocsSum]
  | cons p rest ih =>
      obtain ⟨k, v⟩ := p
      by_cases hk : k = b
      · simp [statsIncIn, hk, incomingDocsSum]
        omega
      · simp [statsIncIn, hk, incomingDocsSum] at ih ⊢
        omega

theorem incomingDocsSum_statsIncOut (l : List (Nat × StatsPair)) (b bytes : Nat) :
    incomingDocsSum (statsIncOut l b bytes) = incomingDocsSum l := by
  induction l with
  | nil => simp [statsIncOut, incomingDocsSum]
  | cons p rest ih =>
      obtain ⟨k, v⟩ := p
      by_cases hk : k = b
      · simp [statsIncOut, hk, incomingDocsSum]
      · simp [statsIncOut, hk, incomingDocsSum] at ih ⊢
        omega

theorem statsGet_statsIncIn_self (l : List (Nat × StatsPair)) (b bytes : Nat) :
    statsGet (statsIncIn l b bytes) b
      = (⟨(statsGet l b).1.docs_total + 1, (statsGet l b).1.bytes_total + bytes⟩,
         (statsGet l b).2) := by
  induction l with
  | nil => simp [statsIncIn, statsGet, default_docsAndBytes]
  | cons p rest ih =>
      obtain ⟨k, v⟩ := p
      by_cases hk : k = b <;> simp [statsIncIn, statsGet, hk, ih]

theorem statsGet_statsIncIn_other (l : List (Nat × StatsPair)) (b bytes i : Nat)
    (h : i ≠ b) :
    statsGet (statsIncIn l b bytes) i = statsGet l i := by
  induction l with
  | nil => simp [statsIncIn, statsGet, h, Ne.symm h]
  | cons p rest ih =>
      obtain ⟨k, v⟩ := p
      by_cases hk : k = b
      · subst hk
        simp [statsIncIn, statsGet, Ne.symm h]
      · by_cases hk2 : k = i <;> simp [statsIncIn, statsGet, hk, hk2, h, ih]

theorem statsGet_statsIncOut_self (l : List (Nat × StatsPair)) (b bytes : Nat) :
    statsGet (statsIncOut l b bytes) b
      = ((statsGet l b).1,
         ⟨(statsGet l b).2.docs_total + 1, (statsGet l b).2.bytes_total + bytes⟩) := by
  induction l with
  | nil => simp [statsIncOut, statsGet, default_docsAndBytes]
  | cons p rest ih =>
      obtain ⟨k, v⟩ := p
      by_cases hk : k = b <;> simp [statsIncOut, statsGet, hk, ih]

theorem statsGet_statsIncOut_other (l : List (Nat × StatsPair)) (b bytes i : Nat)
    (h : i ≠ b) :
    statsGet (statsIncOut l b bytes) i = statsGet l i := by
  induction l with
  | nil => simp [statsIncOut, statsGet, h, Ne.symm h]
  | cons p rest ih =>
      obtain ⟨k, v⟩ := p
      by_cases hk : k = b
      · subst hk
        simp [statsIncOut, statsGet, Ne.symm h]
      · by_cases hk2 : k = i <;> simp [statsIncOut, statsGet, hk, hk2, h, ih]

theorem addsBelow_append (n : Nat) (l1 l2 : List (Nat × Json)) :
    addsBelow n (l1 ++ l2) = addsBelow n l1 + addsBelow n l2 := by
  simp [addsBelow, List.filter_append]

theorem addsBelow_single (n b : Nat) (d : Json) :
    addsBelow n [(b, d)] = if b < n then 1 else 0 := by
  by_cases h : b < n <;> simp [addsBelow, h]

theorem addsBelow_state_slot (n : Nat) (ds : List Json) :
    addsBelow n (ds.map fun d => (n, d)) = 0 := by
  induction ds with
  | nil => simp [addsBelow]
  | cons d rest ih => simp [addsBelow] at ih ⊢

/-- What a successful `recv_connector_captured` call does to the accumulator
and the stats map. -/
theorem recv_connector_captured_ok_spec (acc : Accumulator) (c : response.Captured)
    (task : Task) (txn : Transaction) (acc2 : Accumulator) (txn2 : Transaction)
    (h : recv_connector_captured acc c task txn = .ok (acc2, txn2)) :
    c.binding < task.bindings.length
    ∧ (∃ d, acc2.adds = acc.adds ++ [(c.binding, d)])
    ∧ txn2.stats = statsIncIn txn.stats c.binding c.doc_json.length := by
  rw [recv_connector_captured] at h
  cases hp : parse_json_str c.doc_json with
  | none => rw [hp] at h; cases h
  | some d0 =>
      rw [hp] at h
      cases hb : task.bindings[c.binding]? with
      | none => rw [hb] at h; cases h
      | some b =>
          rw [hb] at h
          have hlt : c.binding < task.bindings.length := by
            by_contra hge
            push_neg at hge
            rw [List.getElem?_eq_none_iff.mpr hge] at hb
            cases hb
          simp only [Except.ok.injEq, Prod.mk.injEq] at h
          obtain ⟨h1, h2⟩ := h
          subst h1
          subst h2
          exact ⟨hlt, ⟨_, rfl⟩, rfl⟩

/-- What a successful `recv_connector_checkpoint` call does to the
accumulator and the stats map: it adds only state-slot entries and leaves
stats untouched. -/
theorem recv_connector_checkpoint_ok_spec (acc : Accumulator) (resp : Response)
    (task : Task) (txn : Transaction) (acc2 : Accumulator) (txn2 : Transaction)
    (h : recv_connector_checkpoint acc resp task txn = .ok (acc2, txn2)) :
    (∃ ds : List Json, acc2.adds = acc.adds ++ ds.map (fun d => (task.bindings.length, d)))
    ∧ txn2.stats = txn.stats := by
  rw [recv_connector_checkpoint] at h
  split at h
  case _ =>
    split at h
    case _ => cases h
    case _ =>
      rename_i od d0 hpar
      split at h
      case _ =>
        simp only [Except.ok.injEq, Prod.mk.injEq] at h
        obtain ⟨h1, h2⟩ := h
        subst h1
        subst h2
        exact ⟨⟨[Json.null, d0], by simp [Accumulator.add]⟩, rfl⟩
      case _ =>
        simp only [Except.ok.injEq, Prod.mk.injEq] at h
        obtain ⟨h1, h2⟩ := h
        subst h1
        subst h2
        exact ⟨⟨[d0], by simp [Accumulator.add]⟩, rfl⟩
  case _ => cases h

/-- One transaction step preserves the difference between the incoming docs
sum and the number of non-state-slot adds. -/
theorem txn_step_invariant (task : Task) (st st1 : Accumulator × Transaction)
    (m : ConnectorMsg) (h : txn_step task st m = .ok st1) :
    incomingDocsSum st1.2.stats + addsBelow task.bindings.length st.1.adds
      = incomingDocsSum st.2.stats + addsBelow task.bindings.length st1.1.adds := by
  cases m with
  | captured c =>
      obtain ⟨hlt, ⟨d, hadds⟩, hstats⟩ :=
        recv_connector_captured_ok_spec st.1 c task st.2 st1.1 st1.2 h
      rw [hstats, incomingDocsSum_statsIncIn, hadds, addsBelow_append, addsBelow_single]
      simp [hlt]
      omega
  | checkpoint r =>
      obtain ⟨⟨ds, hadds⟩, hstats⟩ :=
        recv_connector_checkpoint_ok_spec st.1 r task st.2 st1.1 st1.2 h
      rw [hstats, hadds, addsBelow_append, addsBelow_state_slot]
      omega

/-- Running a transaction preserves the difference between the incoming docs
sum and the number of non-state-slot adds. -/
theorem txn_run_invariant (task : Task) (msgs : List ConnectorMsg) :
    ∀ st st', txn_run task st msgs = .ok st' →
      incomingDocsSum st'.2.stats + addsBelow task.bindings.length st.1.adds
        = incomingDocsSum st.2.stats + addsBelow task.bindings.length st'.1.adds := by
  induction msgs with
  | nil =>
      intro st st' h
      simp only [txn_run, Except.ok.injEq] at h
      subst h
      rfl
  | cons m rest ih =>
      intro st st' h
      simp only [txn_run] at h
      cases hs : txn_step task st m with
      | error e => rw [hs] at h; cases h
      | ok stm =>
          rw [hs] at h
          have h1 := txn_step_invariant task st stm m hs
          have h2 := ih stm st' h
          omega

/-- The stats map of a drained non-state entry's output. -/
theorem send_low_stats (drained : DrainedDoc) (shapes : List Shape) (task : Task)
    (txn : Transaction) (wb : WriteBatch)
    (hne : drained.binding ≠ task.bindings.length) :
    (send_client_captured_or_checkpoint drained shapes task txn wb).txn.stats
      = statsIncOut txn.stats drained.binding (serializeJson drained.root).length := by
  by_cases hch : (shapes[drained.binding]?.getD 0 ||| types.for_value drained.root)
      = shapes[drained.binding]?.getD 0 <;>
    simp [send_client_captured_or_checkpoint, hne, Shape.widen_owned, hch]

end Flow

namespace Flow

/-- C3 counterexample: a transaction consisting of a single connector
`Checkpoint` frame performs one successful `memtable.add` call (the
state-slot add) but records no incoming stats entry, so the sum of incoming
`docs_total` (0) differs from the number of successful add calls (1). -/
theorem c3_stats_counterexample :
    (txn_run task1 freshState
        [ConnectorMsg.checkpoint
          { checkpoint := some { state := some { updated_json := "null",
                                                 merge_patch := true } } }]).map
        (fun st => (incomingDocsSum st.2.stats, st.1.adds.length))
      = .ok (0, 1) := rfl

/-- C3 (amended): over any transaction run from a fresh state, the sum over
all bindings of the incoming `docs_total` equals the number of successful
`add` calls made for captured documents (all adds except those to the
connector-state slot, which checkpoint frames perform without recording
stats); each accepted `Captured` frame records exactly one incoming stats
entry, and each drained non-state document records exactly one outgoing
stats entry. -/
theorem c3_stats_conservation (task : Task) (msgs : List ConnectorMsg)
    (acc : Accumulator) (txn : Transaction)
    (h : txn_run task freshState msgs = .ok (acc, txn)) :
    incomingDocsSum txn.stats = addsBelow task.bindings.length acc.adds
    ∧ (∀ acc0 c txn0 acc1 txn1,
         recv_connector_captured acc0 c task txn0 = .ok (acc1, txn1) →
           (statsGet txn1.stats c.binding).1.docs_total
             = (statsGet txn0.stats c.binding).1.docs_total + 1
           ∧ ∀ i, i ≠ c.binding → statsGet txn1.stats i = statsGet txn0.stats i)
    ∧ (∀ drained shapes txn0 wb, drained.binding < task.bindings.length →
         (statsGet (send_client_captured_or_checkpoint drained shapes task txn0 wb).txn.stats
             drained.binding).2.docs_total
           = (statsGet txn0.stats drained.binding).2.docs_total + 1
         ∧ ∀ i, i ≠ drained.binding →
             statsGet (send_client_captured_or_checkpoint drained shapes task txn0 wb).txn.stats i
               = statsGet txn0.stats i) := by
  refine ⟨?_, ?_, ?_⟩
  · have hinv := txn_run_invariant task msgs freshState (acc, txn) h
    simpa [freshState, incomingDocsSum, addsBelow] using hinv
  · intro acc0 c txn0 acc1 txn1 h1
    obtain ⟨-, -, hstats⟩ :=
      recv_connector_captured_ok_spec acc0 c task txn0 acc1 txn1 h1
    rw [hstats]
    refine ⟨?_, ?_⟩
    · rw [statsGet_statsIncIn_self]
    · intro i hi
      exact statsGet_statsIncIn_other txn0.stats c.binding c.doc_json.length i hi
  · intro drained shapes txn0 wb hlt
    have hne : drained.binding ≠ task.bindings.length := Nat.ne_of_lt hlt
    rw [send_low_stats drained shapes task txn0 wb hne]
    refine ⟨?_, ?_⟩
    · rw [statsGet_statsIncOut_self]
    · intro i hi
      exact statsGet_statsIncOut_other txn0.stats drained.binding
        (serializeJson drained.root).length i hi

/-- C3 witness: the amended claim's run hypothesis discharged on a concrete
one-captured-document transaction. -/
theorem c3_stats_conservation_witness :
    incomingDocsSum
        ((txn_run task1 freshState
            [ConnectorMsg.captured { binding := 0, doc_json := "7" }]).toOption.getD
          freshState).2.stats
      = addsBelow task1.bindings.length
          ((txn_run task1 freshState
              [ConnectorMsg.captured { binding := 0, doc_json := "7" }]).toOption.getD
            freshState).1.adds
    ∧ incomingDocsSum
        ((txn_run task1 freshState
            [ConnectorMsg.captured { binding := 0, doc_json := "7" }]).toOption.getD
          freshState).2.stats = 1 := by
  have hrun : txn_run task1 freshState
      [ConnectorMsg.captured { binding := 0, doc_json := "7" }]
      = .ok (((txn_run task1 freshState
            [ConnectorMsg.captured { binding := 0, doc_json := "7" }]).toOption.getD
          freshState).1,
        ((txn_run task1 freshState
            [ConnectorMsg.captured { binding := 0, doc_json := "7" }]).toOption.getD
          freshState).2) := rfl
  have h := c3_stats_conservation task1
    [ConnectorMsg.captured { binding := 0, doc_json := "7" }] _ _ hrun
  exact ⟨h.1, rfl⟩

end Flow

namespace Flow

/-- C4 witness: the amended claim's drain-side hypothesis discharged at a
concrete drained document, showing the widened shape and the marked
inference. -/
theorem c4_widen_on_drain_witness :
    (send_client_captured_or_checkpoint ⟨0, Json.num (ENumber.unsigned 1)⟩ [0] task1
        {} {}).txn.updated_inferences
      = insert 0 (∅ : Finset Nat)
    ∧ (send_client_captured_or_checkpoint ⟨0, Json.num (ENumber.unsigned 1)⟩ [0] task1
        {} {}).shapes
      = [20] := by
  obtain ⟨⟨h1, h2⟩, -⟩ :=
    c4_widen_on_drain ⟨0, Json.num (ENumber.unsigned 1)⟩ [0] task1 {} {} (by decide)
  constructor
  · rw [h2]
    rfl
  · rw [h1]
    rfl

end Flow
